import Mathlib

/-!
Verification of the row/cursor/viewport core of the `barn` terminal editor.

The Rust source is shallowly embedded: `usize` becomes `Nat` (saturating or
panicking subtractions are modelled explicitly), Rust `String`/`&str` become
Lean `String` viewed as its list of characters (the rows exercised here are
ASCII, where Rust's byte indexing and character indexing agree), functions
that can panic return `Option`/`Except`, and `Instant`/`Duration` become a
nanosecond count (`Nat`).  File reading is passed in as a function
`String → Option String` so that construction is pure.
-/

namespace Barn

/-- `TAB_STOP` from `adapters/editor_rows.rs`. -/
def TAB_STOP : Nat := 8

/-- One line of the file: raw content plus the cached rendered form
(`struct Row` in `adapters/editor_rows.rs`). -/
structure Row where
  row_content : String
  render : String
deriving DecidableEq, Repr

/-- `Row::new` simply stores both fields. -/
def Row.new (row_content : String) (render : String) : Row :=
  ⟨row_content, render⟩

/-- Number of spaces the `while index % TAB_STOP != 0` loop of `render_row`
pushes when entered with counter value `j`: it pushes one space and bumps `j`
until `j` is a multiple of `TAB_STOP`, i.e. `(TAB_STOP - j % TAB_STOP) % TAB_STOP`
spaces in total (zero when `j` is already a multiple). -/
def tabSpaces (j : Nat) : Nat :=
  (TAB_STOP - j % TAB_STOP) % TAB_STOP

/-- The character scan of `EditorRows::render_row`: `ind` is the running
`index` counter.  For each character the counter is first incremented; a tab
emits one space plus the `while`-loop padding of `tabSpaces`, leaving the
counter at the next multiple of `TAB_STOP`; any other character is emitted
unchanged. -/
def renderChars : Nat → List Char → List Char
  | _, [] => []
  | ind, c :: rest =>
    let j := ind + 1
    if c = '\t' then
      List.replicate (1 + tabSpaces j) ' ' ++ renderChars (j + tabSpaces j) rest
    else
      c :: renderChars j rest

/-- `EditorRows::render_row`: recompute `row.render` from `row.row_content`
by the tab-expanding scan (the capacity pre-computation of the source only
sizes the output buffer and has no observable effect). -/
def render_row (row : Row) : Row :=
  { row with render := String.mk (renderChars 0 row.row_content.data) }

/-- Split a list of characters at every newline, keeping the (possibly empty)
piece after the last newline. -/
def splitNL : List Char → List (List Char)
  | [] => [[]]
  | c :: rest =>
    if c = '\n' then
      [] :: splitNL rest
    else
      match splitNL rest with
      | [] => [[c]]
      | l :: ls => (c :: l) :: ls

/-- Drop one trailing carriage return, as Rust's `str::lines` does for
`\r\n` endings. -/
def stripCR (l : List Char) : List Char :=
  if l.getLast? = some '\r' then l.dropLast else l

/-- Rust `str::lines()`: split on `\n`, strip one trailing `\r` per piece,
and do not produce a final empty line for a trailing newline (so `""` has no
lines at all). -/
def rustLines (s : String) : List String :=
  let parts := splitNL s.data
  let parts := if parts.getLast? = some [] then parts.dropLast else parts
  parts.map (fun l => String.mk (stripCR l))

/-- The Row Store: ordered rows plus the optional originating file name
(`struct EditorRows`). -/
structure EditorRows where
  row_content : List Row
  file_name : Option String
deriving DecidableEq, Repr

/-- `EditorRows::from_file`: read the file (the outcome of
`fs::read_to_string` is passed in as `read_result`; `None` models an I/O
error, on which the source's `.expect("Unable to read file")` panics — here
an `Except.error`).  Each line becomes a row whose `render` field is
`String::new()`; nothing calls `render_row` on it. -/
def EditorRows.from_file (read_result : Option String) (file : String) :
    Except String EditorRows :=
  match read_result with
  | none => Except.error "Unable to read file"
  | some file_content =>
      Except.ok
        { row_content := (rustLines file_content).map (fun line => Row.new line "")
          file_name := some file }

/-- `EditorRows::new`: with no argument an empty unnamed buffer, otherwise
`from_file`.  The command-line argument and the file reader are passed in. -/
def EditorRows.new (arg : Option String) (read_file : String → Option String) :
    Except String EditorRows :=
  match arg with
  | none => Except.ok { row_content := [], file_name := none }
  | some file => EditorRows.from_file (read_file file) file

/-- `EditorRows::number_of_rows`. -/
def EditorRows.number_of_rows (e : EditorRows) : Nat :=
  e.row_content.length

/-- `EditorRows::get_editor_row`: the row at index `at_`.  The source indexes
the vector and panics out of range; every use below is in range, so the
default row is never produced. -/
def EditorRows.get_editor_row (e : EditorRows) (at_ : Nat) : Row :=
  e.row_content.getD at_ (Row.new "" "")

/-- `EditorRows::get_row`: raw content of the row at index `at_`. -/
def EditorRows.get_row (e : EditorRows) (at_ : Nat) : String :=
  (e.get_editor_row at_).row_content

/-- `EditorRows::get_render` as a total function returning `none` where the
source's vector indexing would panic. -/
def EditorRows.get_render (e : EditorRows) (at_ : Nat) : Option String :=
  (e.row_content.get? at_).map Row.render

/-- The movement keys `move_cursor` accepts (`KeyCode::Char('k'|'h'|'j'|'l')`,
`KeyCode::End`, `KeyCode::Home`; every other key hits `unimplemented!()`). -/
inductive KeyCode where
  /-- `Char('k')`: up -/
  | k
  /-- `Char('h')`: left -/
  | h
  /-- `Char('j')`: down -/
  | j
  /-- `Char('l')`: right -/
  | l
  /-- `KeyCode::End` -/
  | endKey
  /-- `KeyCode::Home` -/
  | home
deriving DecidableEq, Repr

/-- `struct CursorController` from `adapters/cursor.rs`. -/
structure CursorController where
  cursor_x : Nat
  cursor_y : Nat
  screen_cols : Nat
  screen_rows : Nat
  row_offset : Nat
  col_offset : Nat
  render_x : Nat
deriving DecidableEq, Repr

/-- `CursorController::new`: everything zero, screen size from the window
size pair `(columns, rows)`. -/
def CursorController.new (window_size : Nat × Nat) : CursorController :=
  { cursor_x := 0, cursor_y := 0
    screen_cols := window_size.1
    screen_rows := window_size.2
    row_offset := 0, col_offset := 0, render_x := 0 }

/-- `CursorController::move_cursor`: the per-key update followed by the
final clamp of `cursor_x` to the landing row's length (0 on the sentinel
row `cursor_y = number_of_rows`).  `saturating_sub` is `Nat` subtraction. -/
def CursorController.move_cursor (s : CursorController) (direction : KeyCode)
    (editor_rows : EditorRows) : CursorController :=
  let number_of_rows := editor_rows.number_of_rows
  let s :=
    match direction with
    | .k => { s with cursor_y := s.cursor_y - 1 }
    | .h =>
        if s.cursor_x ≠ 0 then
          { s with cursor_x := s.cursor_x - 1 }
        else if s.cursor_y > 0 then
          { s with cursor_y := s.cursor_y - 1
                   cursor_x := (editor_rows.get_row (s.cursor_y - 1)).length }
        else s
    | .j =>
        if s.cursor_y ≠ number_of_rows then
          { s with cursor_y := s.cursor_y + 1 }
        else s
    | .l =>
        if s.cursor_y < number_of_rows then
          let len := (editor_rows.get_row s.cursor_y).length
          if s.cursor_x < len then { s with cursor_x := s.cursor_x + 1 }
          else if s.cursor_x = len then { s with cursor_y := s.cursor_y + 1, cursor_x := 0 }
          else s
        else s
    | .endKey =>
        if s.cursor_y < number_of_rows then
          { s with cursor_x := (editor_rows.get_row s.cursor_y).length }
        else s
    | .home => { s with cursor_x := 0 }
  let row_len :=
    if s.cursor_y < number_of_rows then (editor_rows.get_row s.cursor_y).length else 0
  { s with cursor_x := min s.cursor_x row_len }

/-- `CursorController::get_render_x`: fold the tab-advance over the first
`cursor_x` characters of the row's raw content (`TAB_STOP - 1 - render_x %
TAB_STOP + 1` for a tab, `+ 1` otherwise). -/
def CursorController.get_render_x (s : CursorController) (row : Row) : Nat :=
  (row.row_content.data.take s.cursor_x).foldl
    (fun render_x c =>
      if c = '\t' then render_x + (TAB_STOP - 1) - render_x % TAB_STOP + 1
      else render_x + 1)
    0

/-- `CursorController::get_cursor_position`: `(render_x - col_offset,
cursor_y - row_offset)` with `usize` subtraction, which panics on underflow
— modelled as `none`. -/
def CursorController.get_cursor_position (s : CursorController) :
    Option (Nat × Nat) :=
  if s.col_offset ≤ s.render_x ∧ s.row_offset ≤ s.cursor_y then
    some (s.render_x - s.col_offset, s.cursor_y - s.row_offset)
  else none

/-- `CursorController::scroll`: recompute `render_x` (0 on the sentinel row),
then clamp `row_offset` down to `cursor_y` and up so `cursor_y` is strictly
inside the window, and the same for `col_offset` against `render_x`. -/
def CursorController.scroll (s : CursorController) (editor_rows : EditorRows) :
    CursorController :=
  let render_x :=
    if s.cursor_y < editor_rows.number_of_rows then
      s.get_render_x (editor_rows.get_editor_row s.cursor_y)
    else 0
  let row_offset := min s.row_offset s.cursor_y
  let row_offset :=
    if s.cursor_y ≥ row_offset + s.screen_rows then s.cursor_y - s.screen_rows + 1
    else row_offset
  let col_offset := min s.col_offset render_x
  let col_offset :=
    if render_x ≥ col_offset + s.screen_cols then render_x - s.screen_cols + 1
    else col_offset
  { s with render_x := render_x, row_offset := row_offset, col_offset := col_offset }

/-- One iteration of `EditorApp::run` as it affects the controller: the
driver reads `get_cursor_position()` from the *pre-scroll* state, then calls
`scroll()`, draws, and finally feeds one key into `move_cursor`. -/
def runCycle (s : CursorController) (editor_rows : EditorRows) (key : KeyCode) :
    CursorController :=
  (s.scroll editor_rows).move_cursor key editor_rows

/-- `struct StatusMessage` from `adapters/status_message.rs`.  `Instant` is a
nanosecond count. -/
structure StatusMessage where
  message : Option String
  set_time : Option Nat
deriving DecidableEq, Repr

/-- `Duration::from_secs(5)` in nanoseconds. -/
def fiveSecondsNs : Nat := 5000000000

/-- `StatusMessage::new`: stores the initial text but records no timestamp. -/
def StatusMessage.new (initial_message : String) : StatusMessage :=
  { message := some initial_message, set_time := none }

/-- `StatusMessage::set_message`: store the text and the current time. -/
def StatusMessage.set_message (_s : StatusMessage) (message : String) (now : Nat) :
    StatusMessage :=
  { message := some message, set_time := some now }

/-- `StatusMessage::message()` (named `current` here because the `message`
field occupies the source name): with no recorded timestamp return `none`;
with one, clear everything and return `none` once `elapsed > 5 s`, else
return the stored text.  The pair is (returned value, state afterwards);
`elapsed` is `now - set_time` (the `Instant` is monotone, so `now ≥ t`). -/
def StatusMessage.current (s : StatusMessage) (now : Nat) :
    Option String × StatusMessage :=
  match s.set_time with
  | none => (none, s)
  | some t =>
      if now - t > fiveSecondsNs then
        (none, { message := none, set_time := none })
      else
        (s.message, s)

/-- The initial status message constructed by `EditorDomain::new`. -/
def editorInitialStatus : StatusMessage :=
  StatusMessage.new "HELP: Ctrl-Q = Quit"

/-- Pad `s` on the right with spaces to width `w`; Rust's `{:<w$}` format,
which never truncates, so the result has length `max s.length w`. -/
def padRightTo (s : String) (w : Nat) : String :=
  s ++ String.mk (List.replicate (w - s.length) ' ')

/-- Pad `s` on the left with spaces to width `w`; Rust's `{:>w$}` format. -/
def padLeftTo (s : String) (w : Nat) : String :=
  String.mk (List.replicate (w - s.length) ' ') ++ s

/-- The `line_info` string of `EditorDomain::draw_status_bar`:
`"{cursor_screen_row + 1}/{number_of_rows}"`. -/
def lineInfo (cursor_screen_row number_of_rows : Nat) : String :=
  Nat.repr (cursor_screen_row + 1) ++ "/" ++ Nat.repr number_of_rows

/-- The `info` string of `EditorDomain::draw_status_bar`:
`"{file_name} -- {number_of_rows} lines"` (with `file_name` already
defaulted to `"[No Name]"`). -/
def infoString (file_name : String) (number_of_rows : Nat) : String :=
  file_name ++ " -- " ++ Nat.repr number_of_rows ++ " lines"

/-- The text `EditorDomain::draw_status_bar` appends (styling escapes
aside): `info` left-justified to `info_len = min(info.len(), screen_cols -
line_info.len())` and `line_info` right-justified to `screen_cols -
info_len`.  The `usize` subtraction `screen_cols - line_info.len()`
underflows (panics) when the line indicator is wider than the window —
modelled as `none`. -/
def draw_status_bar (file_name : String)
    (number_of_rows cursor_screen_row screen_cols : Nat) : Option String :=
  let line_info := lineInfo cursor_screen_row number_of_rows
  let info := infoString file_name number_of_rows
  if line_info.length ≤ screen_cols then
    let info_len := min info.length (screen_cols - line_info.length)
    some (padRightTo info info_len ++ padLeftTo line_info (screen_cols - info_len))
  else none

theorem renderChars_cons_tab (ind : Nat) (rest : List Char) :
    renderChars ind ('\t' :: rest) =
      List.replicate (1 + tabSpaces (ind + 1)) ' ' ++
        renderChars (ind + 1 + tabSpaces (ind + 1)) rest := by
  simp [renderChars]

theorem renderChars_cons_other (ind : Nat) (c : Char) (rest : List Char) (hc : c ≠ '\t') :
    renderChars ind (c :: rest) = c :: renderChars (ind + 1) rest := by
  simp [renderChars, hc]

theorem renderChars_append (p : List Char) : ∀ (ind : Nat) (s : List Char),
    renderChars ind (p ++ s) =
      renderChars ind p ++ renderChars (ind + (renderChars ind p).length) s := by
  induction p with
  | nil => intro ind s; simp [renderChars]
  | cons c p ih =>
    intro ind s
    by_cases hc : c = '\t'
    · subst hc
      rw [List.cons_append, renderChars_cons_tab, renderChars_cons_tab, ih,
        List.append_assoc]
      have hidx : ind +
          (List.replicate (1 + tabSpaces (ind + 1)) ' ' ++
            renderChars (ind + 1 + tabSpaces (ind + 1)) p).length =
          ind + 1 + tabSpaces (ind + 1) +
            (renderChars (ind + 1 + tabSpaces (ind + 1)) p).length := by
        simp [List.length_append, List.length_replicate]
        omega
      rw [hidx]
    · rw [List.cons_append, renderChars_cons_other _ _ _ hc,
        renderChars_cons_other _ _ _ hc, ih, List.cons_append]
      have hidx : ind + (c :: renderChars (ind + 1) p).length =
          ind + 1 + (renderChars (ind + 1) p).length := by
        simp [List.length_cons]
        omega
      rw [hidx]

theorem tab_advance_eq (c : Nat) : (c + 1) + tabSpaces (c + 1) = 8 * (c / 8 + 1) := by
  unfold tabSpaces TAB_STOP
  omega

/-- C5: for a tab at visual column `c` (the rendered length of the raw text
before it), the rendered column immediately after the expanded tab is
`8 * (c / 8 + 1)`, the smallest multiple of 8 strictly greater than `c`
(it is a multiple of 8, exceeds `c`, and is within 8 of `c`); the rest of
the line is rendered starting from that column.  In particular
`render_row` turns raw `"a\tb"` into `"a       b"` of rendered length 9. -/
theorem tab_expansion_c5 (p s : List Char) :
    renderChars 0 (p ++ '\t' :: s) =
      renderChars 0 p ++
        (List.replicate (8 * ((renderChars 0 p).length / 8 + 1) -
            (renderChars 0 p).length) ' ' ++
          renderChars (8 * ((renderChars 0 p).length / 8 + 1)) s) ∧
    (render_row (Row.new (String.mk (p ++ '\t' :: s)) "")).render =
      String.mk (renderChars 0 (p ++ '\t' :: s)) ∧
    (renderChars 0 p).length < 8 * ((renderChars 0 p).length / 8 + 1) ∧
    8 * ((renderChars 0 p).length / 8 + 1) % 8 = 0 ∧
    8 * ((renderChars 0 p).length / 8 + 1) ≤ (renderChars 0 p).length + 8 ∧
    (render_row (Row.new "a\tb" "")).render = "a       b" ∧
    ((render_row (Row.new "a\tb" "")).render).length = 9 := by
  refine ⟨?_, rfl, ?_, ?_, ?_, by decide, by decide⟩
  · rw [renderChars_append, Nat.zero_add, renderChars_cons_tab]
    have h2 := tab_advance_eq (renderChars 0 p).length
    have h1 : 1 + tabSpaces ((renderChars 0 p).length + 1) =
        8 * ((renderChars 0 p).length / 8 + 1) - (renderChars 0 p).length := by
      omega
    rw [h1, h2]
  · omega
  · omega
  · omega

/-- C1: loading does not compute the rendered form.  `from_file` on content
`"a\tb"` yields one row whose `render` field is the empty string (the
constructor is passed `String::new()` and `render_row` is never called),
whereas the tab expansion of the raw content is `"a       b"`. -/
theorem load_render_left_empty_c1 :
    (EditorRows.from_file (some "a\tb") "f").toOption.map
        (fun e => e.get_render 0) = some (some "") ∧
    (render_row (Row.new "a\tb" "")).render = "a       b" ∧
    ("" : String) ≠ "a       b" := by
  decide

/-- C2 counterexample: on the 3-row buffer `["Hello World", "", "\tTabbed"]`
with an 80×24 viewport, End does yield `(11, 0)`, but Down, Down, End does
not yield `(0, 2)` with `render_x = 8` and screen position `(8, 2)`. -/
theorem scenario_counterexample_c2 :
    let rows : EditorRows :=
      { row_content := [Row.new "Hello World" "", Row.new "" "", Row.new "\tTabbed" ""]
        file_name := none }
    let s1 := (CursorController.new (80, 24)).move_cursor .endKey rows
    let s4 := ((s1.move_cursor .j rows).move_cursor .j rows).move_cursor .endKey rows
    (s1.cursor_x, s1.cursor_y) = (11, 0) ∧
    ¬ ((s4.cursor_x, s4.cursor_y) = (0, 2) ∧ (s4.scroll rows).render_x = 8 ∧
        (s4.scroll rows).get_cursor_position = some (8, 2)) := by
  decide

/-- C2 (amended): on the 3-row buffer `["Hello World", "", "\tTabbed"]` with
an 80×24 viewport, End yields `(11, 0)`; Down, Down then land on `(0, 2)`,
and the final End moves to `(7, 2)` (the row has 7 characters); `scroll()`
recomputes `render_x = 14` (the tab expands to column 8 and `"Tabbed"` adds
6), so `screen_position()` reports `(14, 2)` with both offsets still 0. -/
theorem scenario_actual_c2 :
    let rows : EditorRows :=
      { row_content := [Row.new "Hello World" "", Row.new "" "", Row.new "\tTabbed" ""]
        file_name := none }
    let s1 := (CursorController.new (80, 24)).move_cursor .endKey rows
    let s3 := (s1.move_cursor .j rows).move_cursor .j rows
    let s4 := s3.move_cursor .endKey rows
    let s5 := s4.scroll rows
    (s1.cursor_x, s1.cursor_y) = (11, 0) ∧
    (s3.cursor_x, s3.cursor_y) = (0, 2) ∧
    (s4.cursor_x, s4.cursor_y) = (7, 2) ∧
    s5.render_x = 14 ∧
    s5.get_cursor_position = some (14, 2) ∧
    (s5.row_offset, s5.col_offset) = (0, 0) := by
  decide

/-- C3: whatever the cursor position, the previous offsets and the previous
`render_x`, as long as the viewport has at least one row and one column,
`scroll()` leaves the (recomputed) `render_x` and the unchanged `cursor_y`
inside the window: `row_offset ≤ cursor_y < row_offset + screen_rows` and
`col_offset ≤ render_x < col_offset + screen_cols`. -/
theorem scroll_window_invariant_c3 (s : CursorController) (e : EditorRows)
    (hrows : 1 ≤ s.screen_rows) (hcols : 1 ≤ s.screen_cols) :
    ((s.scroll e).row_offset ≤ (s.scroll e).cursor_y ∧
      (s.scroll e).cursor_y < (s.scroll e).row_offset + (s.scroll e).screen_rows) ∧
    ((s.scroll e).col_offset ≤ (s.scroll e).render_x ∧
      (s.scroll e).render_x < (s.scroll e).col_offset + (s.scroll e).screen_cols) := by
  unfold CursorController.scroll
  dsimp only
  split_ifs <;> constructor <;> constructor <;> omega

/-- C3 witness: the invariant at a concrete controller state and buffer. -/
theorem scroll_window_invariant_c3_witness :
    let s : CursorController :=
      { cursor_x := 3, cursor_y := 40, screen_cols := 80, screen_rows := 24
        row_offset := 0, col_offset := 0, render_x := 0 }
    let e : EditorRows := { row_content := [], file_name := none }
    ((s.scroll e).row_offset ≤ (s.scroll e).cursor_y ∧
      (s.scroll e).cursor_y < (s.scroll e).row_offset + (s.scroll e).screen_rows) ∧
    ((s.scroll e).col_offset ≤ (s.scroll e).render_x ∧
      (s.scroll e).render_x < (s.scroll e).col_offset + (s.scroll e).screen_cols) :=
  scroll_window_invariant_c3
    { cursor_x := 3, cursor_y := 40, screen_cols := 80, screen_rows := 24
      row_offset := 0, col_offset := 0, render_x := 0 }
    { row_content := [], file_name := none } (by decide) (by decide)

/-- C4 counterexample: on the one-row buffer `["a"]` with the cursor at the
end of the last row's content (`cursor_x = 1`, `cursor_y = 0`), moving Right
does not leave `cursor_x` unchanged: it wraps to the sentinel row, giving
`(cursor_x, cursor_y) = (0, 1)`. -/
theorem right_wrap_counterexample_c4 :
    let rows : EditorRows := { row_content := [Row.new "a" ""], file_name := none }
    let s : CursorController :=
      { cursor_x := 1, cursor_y := 0, screen_cols := 80, screen_rows := 24
        row_offset := 0, col_offset := 0, render_x := 0 }
    (s.move_cursor .l rows).cursor_x = 0 ∧ (s.move_cursor .l rows).cursor_y = 1 ∧
    ¬ (s.move_cursor .l rows).cursor_x = s.cursor_x := by
  decide

/-- C4 (amended): from any state with `cursor_y ≤ number_of_rows`, moving
Down never yields `cursor_y > number_of_rows`; and moving Right at the end
of the last row's content wraps to the sentinel row, `cursor_y =
number_of_rows` and `cursor_x = 0` (so `cursor_x` only stays put when the
last row is empty). -/
theorem down_clamp_right_wrap_c4 :
    (∀ (s : CursorController) (e : EditorRows), s.cursor_y ≤ e.number_of_rows →
      (s.move_cursor .j e).cursor_y ≤ e.number_of_rows) ∧
    (∀ (s : CursorController) (e : EditorRows), 0 < e.number_of_rows →
      s.cursor_y = e.number_of_rows - 1 →
      s.cursor_x = (e.get_row s.cursor_y).length →
      (s.move_cursor .l e).cursor_y = e.number_of_rows ∧
        (s.move_cursor .l e).cursor_x = 0) := by
  constructor
  · intro s e h
    simp only [CursorController.move_cursor]
    split_ifs <;> (try dsimp only) <;> omega
  · intro s e hn hy hx
    simp only [CursorController.move_cursor]
    split_ifs <;> (try dsimp only) <;> constructor <;> omega

/-- C4 witness: both parts at a concrete state on the one-row buffer
`["ab"]`: Down from the sentinel stays at the sentinel, and Right at the end
of the last row wraps to `(0, 1)`. -/
theorem down_clamp_right_wrap_c4_witness :
    (((({ cursor_x := 0, cursor_y := 1, screen_cols := 80, screen_rows := 24
          row_offset := 0, col_offset := 0, render_x := 0 } : CursorController).move_cursor
        .j { row_content := [Row.new "ab" ""], file_name := none }).cursor_y ≤
      ({ row_content := [Row.new "ab" ""], file_name := none } : EditorRows).number_of_rows) ∧
    ((({ cursor_x := 2, cursor_y := 0, screen_cols := 80, screen_rows := 24
         row_offset := 0, col_offset := 0, render_x := 0 } : CursorController).move_cursor
        .l { row_content := [Row.new "ab" ""], file_name := none }).cursor_y =
      ({ row_content := [Row.new "ab" ""], file_name := none } : EditorRows).number_of_rows ∧
      (({ cursor_x := 2, cursor_y := 0, screen_cols := 80, screen_rows := 24
          row_offset := 0, col_offset := 0, render_x := 0 } : CursorController).move_cursor
        .l { row_content := [Row.new "ab" ""], file_name := none }).cursor_x = 0)) :=
  ⟨down_clamp_right_wrap_c4.1
      { cursor_x := 0, cursor_y := 1, screen_cols := 80, screen_rows := 24
        row_offset := 0, col_offset := 0, render_x := 0 }
      { row_content := [Row.new "ab" ""], file_name := none } (by decide),
    down_clamp_right_wrap_c4.2
      { cursor_x := 2, cursor_y := 0, screen_cols := 80, screen_rows := 24
        row_offset := 0, col_offset := 0, render_x := 0 }
      { row_content := [Row.new "ab" ""], file_name := none }
      (by decide) (by decide) (by decide)⟩

/-- Length of Rust's `{:<w$}` padding: the string is padded, never cut. -/
theorem length_padRightTo (s : String) (w : Nat) :
    (padRightTo s w).length = s.length + (w - s.length) := by
  simp [padRightTo, String.length_append]

/-- Length of Rust's `{:>w$}` padding: the string is padded, never cut. -/
theorem length_padLeftTo (s : String) (w : Nat) :
    (padLeftTo s w).length = (w - s.length) + s.length := by
  simp [padLeftTo, String.length_append]

/-- C6 counterexample: with an unnamed empty buffer and a 2-column window
the right segment `"1/0"` is 3 characters wide, the `usize` subtraction
`screen_cols - line_info.len()` underflows, and `draw_status_bar` panics
(modelled as `none`) instead of producing a `screen_cols`-wide line. -/
theorem status_bar_underflow_c6 :
    (lineInfo 0 0).length = 3 ∧
    draw_status_bar "[No Name]" 0 0 2 = none := by
  decide

/-- C6 (amended): whenever the right segment fits (`line_info.len() ≤
screen_cols`) and the left segment fits beside it (`info.len() ≤
screen_cols - line_info.len()`), `draw_status_bar` produces a status line of
exactly `screen_cols` characters (left segment padded, line indicator
right-aligned); but when the right segment is wider than `screen_cols` the
width computation `screen_cols - line_info.len()` underflows and the call
panics. -/
theorem status_bar_exact_width_c6 (file_name : String)
    (number_of_rows cursor_screen_row screen_cols : Nat)
    (h1 : (lineInfo cursor_screen_row number_of_rows).length ≤ screen_cols)
    (h2 : (infoString file_name number_of_rows).length ≤
      screen_cols - (lineInfo cursor_screen_row number_of_rows).length) :
    ∃ out, draw_status_bar file_name number_of_rows cursor_screen_row screen_cols =
        some out ∧ out.length = screen_cols := by
  unfold draw_status_bar
  rw [if_pos h1]
  refine ⟨_, rfl, ?_⟩
  rw [String.length_append, length_padRightTo, length_padLeftTo]
  omega

/-- C6 witness: a named 3-row buffer in an 80-column window gets a status
line of exactly 80 characters. -/
theorem status_bar_exact_width_c6_witness :
    (∃ out, draw_status_bar "[No Name]" 3 0 80 = some out ∧ out.length = 80) :=
  status_bar_exact_width_c6 "[No Name]" 3 0 80 (by decide) (by decide)

/-- C7 counterexample: at an elapsed time of exactly 5 seconds the source's
strict comparison `elapsed > Duration::from_secs(5)` is false, so
`current()` still returns the message, refuting "None for every elapsed
time ≥ 5 seconds". -/
theorem expiry_boundary_counterexample_c7 :
    (((StatusMessage.new "init").set_message "x" 0).current fiveSecondsNs).1 =
      some "x" := by
  decide

/-- C7 (amended): immediately after `set("x")`, `current()` returns
`Some("x")`; for every elapsed time strictly greater than 5 seconds it
returns `None` and clears both stored fields; and on any state with no
recorded timestamp (in particular the cleared one) every further
`current()` returns `None` and leaves the state unchanged. -/
theorem message_expiry_c7 :
    (∀ (s : StatusMessage) (msg : String) (t : Nat),
      ((s.set_message msg t).current t).1 = some msg) ∧
    (∀ (s : StatusMessage) (msg : String) (t e : Nat), fiveSecondsNs < e →
      ((s.set_message msg t).current (t + e)).1 = none ∧
      ((s.set_message msg t).current (t + e)).2 =
        { message := none, set_time := none }) ∧
    (∀ (s : StatusMessage) (now : Nat), s.set_time = none →
      (s.current now).1 = none ∧ (s.current now).2 = s) := by
  refine ⟨?_, ?_, ?_⟩
  · intro s msg t
    simp [StatusMessage.current, StatusMessage.set_message, fiveSecondsNs]
  · intro s msg t e he
    have hgt : t + e - t > fiveSecondsNs := by omega
    simp [StatusMessage.current, StatusMessage.set_message, hgt, he]
  · intro s now hs
    simp [StatusMessage.current, hs]

/-- C7 witness: the amended behaviour at concrete times 0, 5 s + 1 ns, and
on the cleared state. -/
theorem message_expiry_c7_witness :
    ((((StatusMessage.new "init").set_message "x" 0).current 0).1 = some "x") ∧
    ((((StatusMessage.new "init").set_message "x" 0).current
        (0 + (fiveSecondsNs + 1))).1 = none ∧
      (((StatusMessage.new "init").set_message "x" 0).current
        (0 + (fiveSecondsNs + 1))).2 = { message := none, set_time := none }) ∧
    (((⟨none, none⟩ : StatusMessage).current 7).1 = none ∧
      ((⟨none, none⟩ : StatusMessage).current 7).2 = (⟨none, none⟩ : StatusMessage)) :=
  ⟨message_expiry_c7.1 (StatusMessage.new "init") "x" 0,
    message_expiry_c7.2.1 (StatusMessage.new "init") "x" 0 (fiveSecondsNs + 1)
      (by decide),
    message_expiry_c7.2.2 ⟨none, none⟩ 7 rfl⟩

/-- C8: constructing the Row Store with a specified but unreadable source is
a hard failure (the `expect` panic, modelled as `Except.error`), never an
empty buffer; constructing it with no source yields zero rows and no file
name. -/
theorem construction_failure_c8 :
    (∀ (file : String) (read_file : String → Option String),
      read_file file = none →
      EditorRows.new (some file) read_file = Except.error "Unable to read file") ∧
    (∀ read_file : String → Option String, ∃ e,
      EditorRows.new none read_file = Except.ok e ∧
      e.number_of_rows = 0 ∧ e.file_name = none) := by
  constructor
  · intro file read_file h
    simp [EditorRows.new, EditorRows.from_file, h]
  · intro read_file
    exact ⟨{ row_content := [], file_name := none }, rfl, rfl, rfl⟩

/-- C8 witness: a reader that fails on `"f"` makes construction fail, and a
missing source argument gives the empty unnamed store. -/
theorem construction_failure_c8_witness :
    (EditorRows.new (some "f") (fun _ => none) =
      Except.error "Unable to read file") ∧
    (∃ e, EditorRows.new none (fun _ => none) = Except.ok e ∧
      e.number_of_rows = 0 ∧ e.file_name = none) :=
  ⟨construction_failure_c8.1 "f" (fun _ => none) rfl,
    construction_failure_c8.2 (fun _ => none)⟩

/-- C9: `get_cursor_position` is the pair of `usize` differences
`(render_x - col_offset, cursor_y - row_offset)` and cannot underflow while
the post-`scroll` invariant `row_offset ≤ cursor_y ∧ col_offset ≤ render_x`
holds; but `EditorApp::run` reads it before calling `scroll()`, and on the
two-row buffer `["a", "b"]` with a 1-row viewport the trace Down, Up
(each key following the scroll of its frame) reaches a pre-scroll state with
`cursor_y = 0 < 1 = row_offset`, where the subtraction underflows (panics);
scrolling first would have made the read safe. -/
theorem cursor_position_underflow_c9 :
    (∀ s : CursorController,
      s.row_offset ≤ s.cursor_y → s.col_offset ≤ s.render_x →
      s.get_cursor_position =
        some (s.render_x - s.col_offset, s.cursor_y - s.row_offset)) ∧
    (let rows : EditorRows :=
      { row_content := [Row.new "a" "", Row.new "b" ""], file_name := none }
     let t2 := runCycle (runCycle (CursorController.new (80, 1)) rows .j) rows .k
     (t2.cursor_y, t2.row_offset) = (0, 1) ∧
     t2.get_cursor_position = none ∧
     ((t2.scroll rows).get_cursor_position).isSome = true) := by
  constructor
  · intro s h1 h2
    unfold CursorController.get_cursor_position
    rw [if_pos ⟨h2, h1⟩]
  · decide

/-- C9 witness: the no-underflow direction at a concrete in-invariant
state. -/
theorem cursor_position_underflow_c9_witness :
    ({ cursor_x := 0, cursor_y := 5, screen_cols := 80, screen_rows := 24
       row_offset := 2, col_offset := 0, render_x := 3 } :
      CursorController).get_cursor_position = some (3, 3) :=
  cursor_position_underflow_c9.1
    { cursor_x := 0, cursor_y := 5, screen_cols := 80, screen_rows := 24
      row_offset := 2, col_offset := 0, render_x := 3 }
    (by decide) (by decide)

/-- C10: `StatusMessage::new` stores the initial text (the help banner that
`EditorDomain::new` passes) but no timestamp, and `message()` returns `none`
whenever no timestamp is recorded — without touching the state — so before
the first `set_message` every read returns `none` and the initial banner is
never returned. -/
theorem initial_message_never_shown_c10 :
    editorInitialStatus = StatusMessage.new "HELP: Ctrl-Q = Quit" ∧
    (StatusMessage.new "HELP: Ctrl-Q = Quit").message =
      some "HELP: Ctrl-Q = Quit" ∧
    (∀ (init : String) (now : Nat),
      ((StatusMessage.new init).current now).1 = none ∧
      ((StatusMessage.new init).current now).2 = StatusMessage.new init) := by
  exact ⟨rfl, rfl, fun init now => ⟨rfl, rfl⟩⟩

end Barn
